import Mathlib

/-!
A shallow embedding of the NameNest credential and notification subsystem
(`app/models.py`, `app/emails.py`, `config.py`) in Lean 4, with theorems
checking the specification's claims against it.

Modelling conventions:
  * Python exceptions become an explicit `PyError` value; a fallible
    operation returns `Except PyError α`; a mutating method on a `User`
    returns the pair (result, post-state user).
  * The werkzeug hashing primitives `generate_password_hash` and
    `check_password_hash` are external library calls; they are embedded
    following their documented behaviour: a fresh random salt is drawn per
    call (the salt is made an explicit argument standing for that RNG
    draw), the stored value is the self-describing record
    method / salt / digest (the on-disk string "method$salt$digest"), and
    verification recomputes the digest of the candidate under the stored
    salt and compares.  The cryptographic digest itself is modelled by an
    injective executable function of (salt, password bytes), reflecting
    the collision-freedom the scheme is relied upon for.
  * `current_app` / the application context become an `Option` argument:
    `none` models being outside any application context.
-/

/-- Decidable equality for `Except`, so that concrete runs of the embedded
operations can be checked by `decide`. -/
def Except.decEq {ε α : Type} [DecidableEq ε] [DecidableEq α] :
    (a b : Except ε α) → Decidable (a = b)
  | .ok a, .ok b =>
    if h : a = b then .isTrue (by rw [h]) else .isFalse (by simp [h])
  | .ok _, .error _ => .isFalse (by simp)
  | .error _, .ok _ => .isFalse (by simp)
  | .error e, .error f =>
    if h : e = f then .isTrue (by rw [h]) else .isFalse (by simp [h])

instance {ε α : Type} [DecidableEq ε] [DecidableEq α] : DecidableEq (Except ε α) :=
  Except.decEq

/-- The Python exceptions that the embedded code can raise. -/
inductive PyError where
  | typeError (msg : String)
  | attributeError (msg : String)
  | runtimeError (msg : String)
  | valueError (msg : String)
  | templateNotFound (name : String)
  | transportError (msg : String)
deriving DecidableEq, Repr

/-- A Python value supplied as a password: a `str`, a `bytes` object, or a
value of some other type (recorded by its type name) that has no byte
representation. -/
inductive PwValue where
  | str (s : String)
  | bytes (b : List Nat)
  | other (tyName : String)
deriving DecidableEq, Repr

/-- Python's `type(x).__name__` for a password value. -/
def PwValue.typeName : PwValue → String
  | .str _ => "str"
  | .bytes _ => "bytes"
  | .other ty => ty

/-- The byte sequence werkzeug converts a password value to, when one
exists: a `str` is encoded (character codes model the UTF-8 encoding),
`bytes` are taken as is, anything else has no byte form. -/
def PwValue.toBytes? : PwValue → Option (List Nat)
  | .str s => some (s.data.map Char.toNat)
  | .bytes b => some b
  | .other _ => none

/-- The digest computed by werkzeug's hash internals from the salt and the
password bytes.  Modelled as an injective executable function of the pair,
standing in for PBKDF2-SHA256 which the code relies on to separate
distinct inputs. -/
def pbkdf2 (salt : String) (pw : List Nat) : List Nat :=
  salt.length :: (salt.data.map Char.toNat ++ pw)

/-- The parsed form of werkzeug's self-describing password hash string
"method$salt$digest": the method tag, the salt and the digest.  Since the
three fields are joined by a separator the salt cannot contain, two values
of this type are equal exactly when the stored strings are equal. -/
structure PWHash where
  method : String
  salt : String
  digest : List Nat
deriving DecidableEq, Repr

/-- The hash record stored for byte sequence `b` under fresh salt
`salt`. -/
def mkPWHash (salt : String) (b : List Nat) : PWHash :=
  { method := "pbkdf2:sha256", salt := salt, digest := pbkdf2 salt b }

/-- werkzeug's `generate_password_hash(password)`: draws a fresh random
salt (here the explicit `salt` argument, standing for that RNG draw),
converts the password to bytes, and returns the self-describing hash
record; raises `TypeError` when the password has no byte form. -/
def generate_password_hash (salt : String) (password : PwValue) :
    Except PyError PWHash :=
  match password.toBytes? with
  | some b => .ok { method := "pbkdf2:sha256", salt := salt, digest := pbkdf2 salt b }
  | none => .error (.typeError ("unsupported password type"))

/-- werkzeug's `check_password_hash(pwhash, password)`: parses the stored
hash, recomputes the digest of the candidate under the stored salt and
compares it to the stored digest.  When no hash was ever stored the column
is `None` and the attribute access `pwhash.count` raises
`AttributeError`; a candidate with no byte form raises `TypeError`. -/
def check_password_hash (pwhash : Option PWHash) (password : PwValue) :
    Except PyError Bool :=
  match pwhash with
  | none => .error (.attributeError ("NoneType object has no attribute count"))
  | some h =>
    match password.toBytes? with
    | some b => .ok (decide (pbkdf2 h.salt b = h.digest))
    | none => .error (.typeError ("unsupported password type"))

/-- The persisted `User` entity of `app/models.py` (`users` table).
Columns that storage fills in later are `Option`-valued and default to
`none`, matching a freshly constructed instance. -/
structure User where
  id : Option Int := none
  username : Option String := none
  email : Option String := none
  role_id : Option Int := none
  password_hash : Option PWHash := none
  confirmed : Bool := false
deriving DecidableEq, Repr

/-- The persisted `Role` entity of `app/models.py` (`roles` table). -/
structure Role where
  id : Option Int := none
  name : Option String := none
deriving DecidableEq, Repr

/-- The `User.password` property getter: it unconditionally raises
`AttributeError` (the spec's AccessDeniedError) — password is a
write-only attribute. -/
def User.password_get (_ : User) : Except PyError String :=
  .error (.attributeError ("password is a write-only attribute"))

/-- The `User.password` property setter: hashes the plaintext with a fresh
salt (the explicit `salt` argument models that RNG draw) and overwrites
`password_hash`; re-raises `TypeError` with its own message when the
plaintext cannot be hashed.  Returned is the pair (result, post-state
user): on the error path the assignment never happens, so the user is
returned unchanged. -/
def User.password_set (salt : String) (password : PwValue) (u : User) :
    Except PyError Unit × User :=
  match generate_password_hash salt password with
  | .ok h => (.ok (), { u with password_hash := some h })
  | .error _ =>
    (.error (.typeError ("cannot hash a " ++ password.typeName ++ " type")), u)

/-- `User.verify_password`: checks the candidate against the stored
`password_hash` via `check_password_hash`; a `TypeError` from the
primitive is caught and re-raised with the method's own message, any
other exception propagates unchanged. -/
def User.verify_password (u : User) (password : PwValue) : Except PyError Bool :=
  match check_password_hash u.password_hash password with
  | .ok b => .ok b
  | .error (.typeError _) =>
    .error (.typeError ("cannot hash a " ++ password.typeName ++ " type"))
  | .error e => .error e

/-- A Python value supplied as the `user_id` argument of `load_user`: an
`int`, a `str` (convertible when it parses as an integer literal), or a
value of some other type that `int(...)` rejects. -/
inductive Ident where
  | intVal (n : Int)
  | strVal (s : String)
  | other (tyName : String)
deriving DecidableEq, Repr

/-- Whether `c` is a decimal digit. -/
def isDigitCh (c : Char) : Bool :=
  decide (48 <= c.toNat) && decide (c.toNat <= 57)

/-- Accumulates the decimal value of a digit run; fails at the first
non-digit. -/
def parseDigitsAux : List Char → Nat → Option Nat
  | [], acc => some acc
  | c :: cs, acc =>
    if isDigitCh c then parseDigitsAux cs (acc * 10 + (c.toNat - 48)) else none

/-- The integer a Python `int(...)` call reads from a string: an optional
leading minus sign followed by at least one decimal digit; `none` when
the string is not such a literal. -/
def pyStrToInt? (s : String) : Option Int :=
  match s.data with
  | [] => none
  | ['-'] => none
  | '-' :: c :: cs => (parseDigitsAux (c :: cs) 0).map (fun n => -(n : Int))
  | c :: cs => (parseDigitsAux (c :: cs) 0).map (fun n => (n : Int))

/-- Python's `int(x)` conversion: an `int` passes through, a `str` is
parsed as an integer literal (`ValueError` when it is not one), any other
type raises `TypeError`. -/
def pyInt : Ident → Except PyError Int
  | .intVal n => .ok n
  | .strVal s =>
    match pyStrToInt? s with
    | some n => .ok n
    | none => .error (.valueError ("invalid literal for int: " ++ s))
  | .other ty =>
    .error (.typeError ("int argument must be a string or a number, not " ++ ty))

/-- `load_user(user_id)` of `app/models.py`: `User.query.get(int(user_id))`.
The `db` argument models the active storage/application context as the
table of stored users, `none` standing for no active context.  Python
evaluates `User.query.get` before the argument `int(user_id)`, so the
missing-context `RuntimeError` fires before any conversion; with a
context, `int(user_id)` runs next and its error propagates; then
`query.get` returns the user with the requested primary key, or `None`
when there is none. -/
def load_user (db : Option (List User)) (user_id : Ident) :
    Except PyError (Option User) :=
  match db with
  | none =>
    .error (.runtimeError ("application not registered on db instance"))
  | some users =>
    match pyInt user_id with
    | .ok n => .ok (users.find? (fun u => decide (u.id = some n)))
    | .error e => .error e

/-- A Flask-Mail `Message`: subject, sender and recipients are set at
construction; the plaintext and HTML bodies are assigned afterwards. -/
structure Message where
  subject : String
  sender : String
  recipients : List String
  body : String := ""
  html : String := ""
deriving DecidableEq, Repr

/-- The slice of the application state `app/emails.py` touches: the two
configuration values `NAMENEST_MAIL_SUBJECT_PREFIX` (field `subjPfx`) and
`NAMENEST_MAIL_SENDER` (field `mailSender`), the template renderer
(`render_template`, which raises when the template is missing or broken),
and the mail transport (`mail.send`, which raises on delivery failure). -/
structure EmailApp where
  subjPfx : String
  mailSender : String
  render : String → List (String × String) → Except PyError String
  transport : Message → Except PyError Unit

/-- `send_email(app, msg)` of `app/emails.py`: enters the application
context of `app` and delivers `msg` on its transport.  `none` models an
app whose context can no longer be entered. -/
def send_email (app : Option EmailApp) (msg : Message) : Except PyError Unit :=
  match app with
  | none => .error (.runtimeError ("working outside of application context"))
  | some a => a.transport msg

/-- The `Thread(target=send_email, args=[app, msg])` handle returned by
`send_async_email`: it closes over the app and the already-rendered
message. -/
structure EmailThread where
  app : EmailApp
  msg : Message

/-- What the detached thread executes when scheduled: `send_email` on the
captured app and message.  Its outcome is the thread's private result;
it is not part of `send_async_email`'s return value. -/
def EmailThread.run (t : EmailThread) : Except PyError Unit :=
  send_email (some t.app) t.msg

/-- `send_async_email(recipient, subject, template, **context)` of
`app/emails.py`: requires an active application context (`capp`), builds
the message with the configured subject prefix and sender, renders the
`.txt` and `.html` bodies synchronously in the caller, then spawns the
thread and returns its handle.  Render errors therefore occur before any
thread exists and propagate to the caller. -/
def send_async_email (capp : Option EmailApp) (recipient subject template : String)
    (context : List (String × String)) : Except PyError EmailThread :=
  match capp with
  | none => .error (.runtimeError ("working outside of application context"))
  | some app =>
    let msg : Message :=
      { subject := app.subjPfx ++ " " ++ subject
        sender := app.mailSender
        recipients := [recipient] }
    match app.render (template ++ ".txt") context with
    | .error e => .error e
    | .ok bodyTxt =>
      match app.render (template ++ ".html") context with
      | .error e => .error e
      | .ok bodyHtml =>
        .ok { app := app, msg := { msg with body := bodyTxt, html := bodyHtml } }

/-- `Config.NAMENEST_MAIL_SUBJECT_PREFIX` of `config.py`. -/
def Config.NAMENEST_MAIL_SUBJECT_PREFIX : String := "[NameNest]"

/-- `Config.NAMENEST_MAIL_SENDER` of `config.py`. -/
def Config.NAMENEST_MAIL_SENDER : String := "NameNest Admin <namenest@gmail.com>"

/-- A concrete application state for concrete runs: the default
configuration values of `config.py`, a renderer that knows the two
`confirm` templates, and a transport that succeeds. -/
def demoApp : EmailApp where
  subjPfx := Config.NAMENEST_MAIL_SUBJECT_PREFIX
  mailSender := Config.NAMENEST_MAIL_SENDER
  render := fun name _ =>
    if name = "confirm.txt" then .ok ("please confirm your account")
    else if name = "confirm.html" then .ok ("<p>please confirm your account</p>")
    else .error (.templateNotFound name)
  transport := fun _ => .ok ()

/-- The demo application with a renderer that fails on every template
(e.g. the template files are missing). -/
def brokenRenderApp : EmailApp :=
  { demoApp with render := fun name _ => .error (.templateNotFound name) }

/-- The demo application with a mail transport that always fails. -/
def downMailApp : EmailApp :=
  { demoApp with transport := fun _ => .error (.transportError ("connection refused")) }

/-! Helper lemmas shared by the claim theorems. -/

/-- Two characters with the same character code are equal. -/
theorem charToNat_inj : Function.Injective Char.toNat := by
  intro a b h
  exact Char.ext (UInt32.ext h)

/-- The byte encoding of a string determines the string. -/
theorem strBytes_inj (s t : String)
    (h : s.data.map Char.toNat = t.data.map Char.toNat) : s = t := by
  ext1
  exact List.map_injective_iff.mpr charToNat_inj h

/-- Under one salt, the modelled digest separates distinct byte inputs. -/
theorem pbkdf2_inj_bytes (salt : String) (b1 b2 : List Nat)
    (h : pbkdf2 salt b1 = pbkdf2 salt b2) : b1 = b2 := by
  simpa [pbkdf2] using h

/-- `int(x)` raises only conversion errors: a `ValueError` for an
unparsable string or a `TypeError` for a type with no integer form. -/
theorem pyInt_error_shape (ident : Ident) (e : PyError)
    (h : pyInt ident = .error e) :
    (∃ m, e = .valueError m) ∨ (∃ m, e = .typeError m) := by
  cases ident with
  | intVal n => simp [pyInt] at h
  | strVal s =>
    cases hs : pyStrToInt? s with
    | some n => simp [pyInt, hs] at h
    | none =>
      simp [pyInt, hs] at h
      exact .inl ⟨_, h.symm⟩
  | other ty =>
    simp [pyInt] at h
    exact .inr ⟨_, h.symm⟩

/-! Claim theorems. -/

/-- C1: for every user and every password value convertible to bytes,
setting the password and then verifying the same value returns true. -/
theorem set_then_verify_true (salt : String) (u : User) (p : PwValue)
    (h : p.toBytes?.isSome) :
    ((u.password_set salt p).2.verify_password p) = .ok true := by
  obtain ⟨b, hb⟩ := Option.isSome_iff_exists.mp h
  simp [User.password_set, generate_password_hash, hb, User.verify_password,
    check_password_hash]

/-- Witness for C1 at the test's concrete input. -/
theorem set_then_verify_true_w :
    ((User.password_set ("saltsalt") (.str ("flaskisawesome")) {}).2.verify_password
      (.str ("flaskisawesome"))) = .ok true :=
  set_then_verify_true ("saltsalt") {} (.str ("flaskisawesome")) (by decide)

/-- C2: after setting one plaintext, verifying a different plaintext
returns false; and in general verification returns true exactly when the
digest of the candidate under the stored hash's salt reproduces the
stored digest. -/
theorem verify_password_spec :
    (∀ (salt : String) (u : User) (p1 p2 : String), p1 ≠ p2 →
      ((u.password_set salt (.str p1)).2.verify_password (.str p2)) = .ok false)
    ∧
    (∀ (u : User) (hsh : PWHash) (p : PwValue), u.password_hash = some hsh →
      (u.verify_password p = .ok true ↔
        ∃ b, p.toBytes? = some b ∧ pbkdf2 hsh.salt b = hsh.digest)) := by
  constructor
  · intro salt u p1 p2 hne
    simp only [User.password_set, generate_password_hash, PwValue.toBytes?,
      User.verify_password, check_password_hash]
    simp only [Except.ok.injEq, decide_eq_false_iff_not]
    intro heq
    exact hne (strBytes_inj p1 p2 (pbkdf2_inj_bytes salt _ _ heq).symm)
  · intro u hsh p hstored
    cases hp : p.toBytes? with
    | none =>
      simp [User.verify_password, check_password_hash, hstored, hp]
    | some b =>
      simp [User.verify_password, check_password_hash, hstored, hp]

/-- Witness for C2 at the test's concrete inputs. -/
theorem verify_password_spec_w :
    ((User.password_set ("saltsalt") (.str ("flaskisawesome")) {}).2.verify_password
        (.str ("flaskisnotawesome"))) = .ok false
    ∧ (((User.password_set ("saltsalt") (.str ("flaskisawesome")) {}).2.verify_password
        (.str ("flaskisawesome")) = .ok true) ↔
      ∃ b, (PwValue.str ("flaskisawesome")).toBytes? = some b ∧
        pbkdf2 ("saltsalt") b =
          pbkdf2 ("saltsalt") ((String.data ("flaskisawesome")).map Char.toNat)) :=
  ⟨verify_password_spec.1 ("saltsalt") {} ("flaskisawesome") ("flaskisnotawesome")
      (by decide),
    verify_password_spec.2
      (User.password_set ("saltsalt") (.str ("flaskisawesome")) {}).2
      { method := "pbkdf2:sha256", salt := "saltsalt",
        digest := pbkdf2 ("saltsalt") ((String.data ("flaskisawesome")).map Char.toNat) }
      (.str ("flaskisawesome")) (by decide)⟩

/-- C3: reading the password property always raises the access-denied
`AttributeError` and never returns any value, whether or not a password
was previously set. -/
theorem password_get_always_denied (u : User) :
    u.password_get =
        .error (.attributeError ("password is a write-only attribute"))
      ∧ ∀ s : String, u.password_get ≠ .ok s :=
  ⟨rfl, fun _ h => by simp [User.password_get] at h⟩

/-- Witness for C3 at a fresh user. -/
theorem password_get_always_denied_w :
    User.password_get {} =
      .error (.attributeError ("password is a write-only attribute")) :=
  (password_get_always_denied {}).1

/-- C4: two password assignments with the same plaintext but distinct
fresh salts store distinct hashes, on the same or on different users. -/
theorem same_password_different_hashes (salt1 salt2 : String) (u1 u2 : User)
    (p : PwValue) (hsalt : salt1 ≠ salt2) (hb : p.toBytes?.isSome) :
    (u1.password_set salt1 p).2.password_hash.isSome
    ∧ (u1.password_set salt1 p).2.password_hash ≠
        (u2.password_set salt2 p).2.password_hash := by
  obtain ⟨b, hb'⟩ := Option.isSome_iff_exists.mp hb
  refine ⟨?_, ?_⟩ <;>
    simp [User.password_set, generate_password_hash, hb', PWHash.mk.injEq, hsalt]

/-- Witness for C4: same plaintext, two fresh salts, distinct hashes. -/
theorem same_password_different_hashes_w :
    (User.password_set ("aaaaaaaa") (.str ("flaskisawesome")) {}).2.password_hash.isSome
    ∧ (User.password_set ("aaaaaaaa") (.str ("flaskisawesome")) {}).2.password_hash ≠
        (User.password_set ("bbbbbbbb") (.str ("flaskisawesome")) {}).2.password_hash :=
  same_password_different_hashes ("aaaaaaaa") ("bbbbbbbb") {} {}
    (.str ("flaskisawesome")) (by decide) (by decide)

/-- C9: a password assignment that fails because the value cannot be
hashed leaves the user record, all fields included, unchanged. -/
theorem failed_set_leaves_user_unchanged (salt : String) (u : User)
    (p : PwValue) (h : p.toBytes? = none) :
    (u.password_set salt p).2 = u := by
  simp [User.password_set, generate_password_hash, h]

/-- Witness for C9 at a dict-typed password. -/
theorem failed_set_leaves_user_unchanged_w :
    (User.password_set ("saltsalt") (.other ("dict"))
      { username := some ("dave") }).2 = { username := some ("dave") } :=
  failed_set_leaves_user_unchanged ("saltsalt") { username := some ("dave") }
    (.other ("dict")) (by decide)

/-- C8: the setter and the verifier raise the hashing `TypeError` exactly
when the supplied value has no byte form (the verifier read against a
stored hash); on a byte-convertible value the setter succeeds and
overwrites `password_hash` with the fresh salted hash, and the verifier
returns a boolean. -/
theorem hashing_error_iff_not_convertible :
    (∀ (salt : String) (u : User) (p : PwValue), p.toBytes? = none →
      (u.password_set salt p).1 =
        .error (.typeError ("cannot hash a " ++ p.typeName ++ " type")))
    ∧
    (∀ (salt : String) (u : User) (p : PwValue) (b : List Nat),
      p.toBytes? = some b →
      u.password_set salt p =
        (.ok (), { u with password_hash := some (mkPWHash salt b) }))
    ∧
    (∀ (u : User) (hsh : PWHash) (p : PwValue), u.password_hash = some hsh →
      p.toBytes? = none →
      u.verify_password p =
        .error (.typeError ("cannot hash a " ++ p.typeName ++ " type")))
    ∧
    (∀ (u : User) (hsh : PWHash) (p : PwValue) (b : List Nat),
      u.password_hash = some hsh → p.toBytes? = some b →
      u.verify_password p = .ok (decide (pbkdf2 hsh.salt b = hsh.digest))) := by
  refine ⟨?_, ?_, ?_, ?_⟩
  · intro salt u p h
    simp [User.password_set, generate_password_hash, h]
  · intro salt u p b h
    simp [User.password_set, generate_password_hash, h, mkPWHash]
  · intro u hsh p hstored h
    simp [User.verify_password, check_password_hash, hstored, h]
  · intro u hsh p b hstored h
    simp [User.verify_password, check_password_hash, hstored, h]

/-- Witness for C8: a dict-typed password fails both operations with the
hashing error; the string password succeeds and overwrites the hash. -/
theorem hashing_error_iff_not_convertible_w :
    (User.password_set ("saltsalt") (.other ("dict")) {}).1 =
        .error (.typeError ("cannot hash a dict type"))
    ∧ User.password_set ("saltsalt") (.bytes [1, 2, 3]) {} =
        (.ok (), { password_hash := some (mkPWHash ("saltsalt") [1, 2, 3]) })
    ∧ ((User.password_set ("saltsalt") (.bytes [1, 2, 3]) {}).2.verify_password
        (.other ("dict"))) =
        .error (.typeError ("cannot hash a dict type"))
    ∧ ((User.password_set ("saltsalt") (.bytes [1, 2, 3]) {}).2.verify_password
        (.bytes [1, 2, 3])) =
        .ok (decide (pbkdf2 ("saltsalt") [1, 2, 3] =
          pbkdf2 ("saltsalt") [1, 2, 3])) :=
  ⟨hashing_error_iff_not_convertible.1 ("saltsalt") {} (.other ("dict")) (by decide),
   hashing_error_iff_not_convertible.2.1 ("saltsalt") {} (.bytes [1, 2, 3])
     [1, 2, 3] (by decide),
   hashing_error_iff_not_convertible.2.2.1
     (User.password_set ("saltsalt") (.bytes [1, 2, 3]) {}).2
     (mkPWHash ("saltsalt") [1, 2, 3])
     (.other ("dict")) (by decide) (by decide),
   hashing_error_iff_not_convertible.2.2.2
     (User.password_set ("saltsalt") (.bytes [1, 2, 3]) {}).2
     (mkPWHash ("saltsalt") [1, 2, 3])
     (.bytes [1, 2, 3]) [1, 2, 3] (by decide) (by decide)⟩

/-- C5: with no active storage context `load_user` raises the storage
`RuntimeError`; with one, for a convertible identifier it returns `None`
when no stored user has the requested id, returns only stored users whose
id equals the requested value, and returns such a user whenever one
exists. -/
theorem load_user_spec :
    (∀ ident : Ident, load_user none ident =
      .error (.runtimeError ("application not registered on db instance")))
    ∧
    (∀ (users : List User) (ident : Ident) (n : Int), pyInt ident = .ok n →
      (∀ u ∈ users, u.id ≠ some n) → load_user (some users) ident = .ok none)
    ∧
    (∀ (users : List User) (ident : Ident) (n : Int) (u : User),
      pyInt ident = .ok n → load_user (some users) ident = .ok (some u) →
      u ∈ users ∧ u.id = some n)
    ∧
    (∀ (users : List User) (ident : Ident) (n : Int), pyInt ident = .ok n →
      (∃ u ∈ users, u.id = some n) →
      ∃ u, load_user (some users) ident = .ok (some u) ∧ u.id = some n) := by
  refine ⟨fun _ => rfl, ?_, ?_, ?_⟩
  · intro users ident n hconv hnone
    have hfind : users.find? (fun u => decide (u.id = some n)) = none :=
      List.find?_eq_none.mpr (fun u hu => by simpa using hnone u hu)
    simp [load_user, hconv, hfind]
  · intro users ident n u hconv hres
    simp [load_user, hconv] at hres
    have hp := List.find?_some hres
    simp only [decide_eq_true_eq] at hp
    exact ⟨List.mem_of_find?_eq_some hres, hp⟩
  · intro users ident n hconv hex
    have hsome : (users.find? (fun u => decide (u.id = some n))).isSome := by
      apply List.find?_isSome.mpr
      obtain ⟨u, hu, hid⟩ := hex
      exact ⟨u, hu, by simpa using hid⟩
    obtain ⟨u, hu⟩ := Option.isSome_iff_exists.mp hsome
    have hp := List.find?_some hu
    simp only [decide_eq_true_eq] at hp
    exact ⟨u, by simp [load_user, hconv, hu], hp⟩

/-- Witness for C5 at a two-user table queried with the string id "2". -/
theorem load_user_spec_w :
    load_user none (.intVal 7) =
      .error (.runtimeError ("application not registered on db instance"))
    ∧ load_user (some [{ id := some 1 }, { id := some 2 }]) (.strVal ("9")) =
      .ok none
    ∧ (({ id := some 2 } : User) ∈ [({ id := some 1 } : User), { id := some 2 }] ∧
        ({ id := some 2 } : User).id = some 2)
    ∧ ∃ u, load_user (some [{ id := some 1 }, { id := some 2 }]) (.strVal ("2")) =
        .ok (some u) ∧ u.id = some 2 :=
  ⟨load_user_spec.1 (.intVal 7),
   load_user_spec.2.1 [{ id := some 1 }, { id := some 2 }] (.strVal ("9")) 9
     (by decide) (by decide),
   load_user_spec.2.2.1 [{ id := some 1 }, { id := some 2 }] (.strVal ("2")) 2
     { id := some 2 } (by decide) (by decide),
   load_user_spec.2.2.2 [{ id := some 1 }, { id := some 2 }] (.strVal ("2")) 2
     (by decide) ⟨{ id := some 2 }, by decide, by decide⟩⟩

/-- C10: with an active storage context, a non-convertible identifier
makes `load_user` raise the conversion error itself — which is never the
storage `RuntimeError` — and return no result. -/
theorem load_user_bad_identifier (users : List User) (ident : Ident)
    (e : PyError) (h : pyInt ident = .error e) :
    load_user (some users) ident = .error e
    ∧ (∀ msg, e ≠ .runtimeError msg)
    ∧ (∀ r, load_user (some users) ident ≠ .ok r) := by
  refine ⟨by simp [load_user, h], ?_, ?_⟩
  · intro msg hmsg
    rcases pyInt_error_shape ident e h with ⟨m, hm⟩ | ⟨m, hm⟩ <;> simp [hm] at hmsg
  · intro r hr
    simp [load_user, h] at hr

/-- Witness for C10 at the unparsable string id "abc". -/
theorem load_user_bad_identifier_w :
    load_user (some [{ id := some 1 }]) (.strVal ("abc")) =
      .error (.valueError ("invalid literal for int: abc"))
    ∧ (∀ msg, PyError.valueError ("invalid literal for int: abc") ≠
        .runtimeError msg)
    ∧ (∀ r, load_user (some [{ id := some 1 }]) (.strVal ("abc")) ≠ .ok r) :=
  load_user_bad_identifier [{ id := some 1 }] (.strVal ("abc"))
    (.valueError ("invalid literal for int: abc")) (by decide)

/-- C6: with an active application context and both templates rendering,
`send_async_email` returns the handle of the spawned thread, whose
message carries the configured subject prefix, a space and the given
subject, the configured sender, the single given recipient, and the
bodies rendered from the `.txt` and `.html` templates with the given
context. -/
theorem send_async_email_message_spec (app : EmailApp)
    (recipient subject template : String) (context : List (String × String))
    (bodyTxt bodyHtml : String)
    (htxt : app.render (template ++ ".txt") context = .ok bodyTxt)
    (hhtml : app.render (template ++ ".html") context = .ok bodyHtml) :
    send_async_email (some app) recipient subject template context =
      .ok { app := app
            msg := { subject := app.subjPfx ++ " " ++ subject
                     sender := app.mailSender
                     recipients := [recipient]
                     body := bodyTxt
                     html := bodyHtml } } := by
  simp [send_async_email, htxt, hhtml]

/-- Witness for C6: the concrete scenario of the spec, with the default
configuration; the rendered subject is "[NameNest] Confirm". -/
theorem send_async_email_message_spec_w :
    send_async_email (some demoApp) ("a@example.com") ("Confirm") ("confirm")
        [(("token"), ("abc"))] =
      .ok { app := demoApp
            msg := { subject := "[NameNest] Confirm"
                     sender := "NameNest Admin <namenest@gmail.com>"
                     recipients := ["a@example.com"]
                     body := "please confirm your account"
                     html := "<p>please confirm your account</p>" } } :=
  send_async_email_message_spec demoApp ("a@example.com") ("Confirm") ("confirm")
    [(("token"), ("abc"))] ("please confirm your account")
    ("<p>please confirm your account</p>") rfl rfl

/-- C7 counterexample: a template-render failure is observed by the very
caller of `send_async_email` — with missing template files the call
itself raises the renderer's error instead of returning a handle, so the
claim that the caller never observes a template-render failure is false
at this input. -/
theorem render_error_reaches_caller :
    send_async_email (some brokenRenderApp) ("a@example.com") ("Confirm")
        ("confirm") [(("token"), ("abc"))] =
      .error (.templateNotFound ("confirm.txt")) := rfl

/-- C7 as amended: failures of the mail transport, which do happen inside
the detached thread, never propagate — even when every transport attempt
fails, `send_async_email` still returns the thread handle (rendering
permitting), and the failure is confined to the detached thread's own
run.  Template rendering, by contrast, runs synchronously in the caller
before the thread is spawned. -/
theorem transport_error_never_reaches_caller (app : EmailApp)
    (recipient subject template : String) (context : List (String × String))
    (bodyTxt bodyHtml : String)
    (htxt : app.render (template ++ ".txt") context = .ok bodyTxt)
    (hhtml : app.render (template ++ ".html") context = .ok bodyHtml)
    (hdown : ∀ m : Message, ∃ e : PyError, app.transport m = .error e) :
    ∃ t : EmailThread,
      send_async_email (some app) recipient subject template context = .ok t
      ∧ ∃ e : PyError, t.run = .error e := by
  refine ⟨{ app := app
            msg := { subject := app.subjPfx ++ " " ++ subject
                     sender := app.mailSender
                     recipients := [recipient]
                     body := bodyTxt
                     html := bodyHtml } }, ?_, ?_⟩
  · simp [send_async_email, htxt, hhtml]
  · exact hdown _

/-- Witness for the amended C7: with the transport down, the call still
returns a handle and the delivery failure stays inside the thread. -/
theorem transport_error_never_reaches_caller_w :
    ∃ t : EmailThread,
      send_async_email (some downMailApp) ("a@example.com") ("Confirm")
          ("confirm") [(("token"), ("abc"))] = .ok t
      ∧ ∃ e : PyError, t.run = .error e :=
  transport_error_never_reaches_caller downMailApp ("a@example.com") ("Confirm")
    ("confirm") [(("token"), ("abc"))] ("please confirm your account")
    ("<p>please confirm your account</p>") rfl rfl
    (fun _ => ⟨.transportError ("connection refused"), rfl⟩)
